import Mathlib

/-!
# Url-Shortner-Server: slug lifecycle and rate limit

A shallow embedding of `server.go`.  The document store (MongoDB collections
`slugs` and `hits`), the identity provider, the wall clock and the identifier
generator are external to the program; they are made explicit here:

* a collection is the list of its documents in the order the store returns them,
  `InsertOne` appending at the end;
* every driver call takes a fault argument saying whether that call returns an
  error (a failed call has no effect on the collection);
* every `time.Now()` is an explicit wall-clock reading, in nanoseconds since the
  Unix epoch, and the time zone of the process (`time.Local`) is a table of
  offsets supplied by the environment;
* `primitive.NewObjectID()` and `firebaseAuth.GetUser` are answers supplied by the
  environment of the request.
-/

set_option linter.dupNamespace false

namespace UrlShortner

/-! ## Values of the Go program -/

/-- A `primitive.ObjectID`: twelve bytes, held as the number they spell big-endian. -/
abbrev ObjectID := Nat

/-- A `primitive.DateTime`: milliseconds since the Unix epoch. -/
abbrev DateTime := Int

/-- A wall-clock `time.Time`: nanoseconds since the Unix epoch. -/
abbrev Time := Int

/-- Go `error` values that occur in the program. -/
inductive GoError where
  /-- An `errors.New(msg)` value. -/
  | errorsNew (msg : String)
  /-- An error returned by the mongo driver (connectivity, timeout, decode ...). -/
  | mongo (code : Nat)
  /-- An error returned by the firebase auth client, with its error code. -/
  | firebase (code : String)
  /-- An error of `ctx.ShouldBindBodyWith`. -/
  | bind (code : Nat)
  /-- An error of `primitive.ObjectIDFromHex`. -/
  | invalidHex
deriving DecidableEq, Repr

/-- A Go slice: `none` is the nil slice, `some l` a non-nil slice with elements `l`. -/
abbrev GoSlice (α : Type) := Option (List α)

/-- Go `len` on a slice. -/
def GoSlice.len {α : Type} : GoSlice α → Nat
  | none => 0
  | some l => l.length

/-- Go `append(s, x)`. -/
def GoSlice.append {α : Type} : GoSlice α → α → GoSlice α
  | none, x => some [x]
  | some l, x => some (l ++ [x])

/-- Go `make([]T, 0, n)`: an empty slice that is not nil. -/
def GoSlice.make {α : Type} : GoSlice α := some []

/-- The elements of a slice (a nil slice has none). -/
def GoSlice.elems {α : Type} : GoSlice α → List α
  | none => []
  | some l => l

/-- The type `Slug` of server.go (lines 28-33). -/
structure Slug where
  ID : ObjectID
  Slug : String
  Domain : String
  UserID : String
deriving DecidableEq, Repr

/-- The type `SlugCreate` of server.go (lines 34-38). -/
structure SlugCreate where
  Slug : String
  Domain : String
  UserID : String
deriving DecidableEq, Repr

/-- The type `SlugPersistence` of server.go (lines 40-47). -/
structure SlugPersistence where
  ID : ObjectID
  Slug : String
  Domain : String
  UserID : String
  CreatedAt : DateTime
  UpdatedAt : DateTime
deriving DecidableEq, Repr

/-- The type `EndpointHit` of server.go (lines 49-52). -/
structure EndpointHit where
  Slug : Slug
  HittedAt : DateTime
deriving DecidableEq, Repr

/-! ## Wall clock -/

/-- Go `t.Unix()`: whole seconds since the epoch (rounded down). -/
def Unix (t : Time) : Int := t / 1000000000

/-- Go `t.Nanosecond()`: the nanosecond offset within the second, in `[0, 10^9)`. -/
def Nanosecond (t : Time) : Int := t % 1000000000

/-- The driver function `primitive.NewDateTimeFromTime`:
`DateTime(t.Unix()*1e3 + int64(t.Nanosecond())/1e6)` (int64 range not modelled). -/
def NewDateTimeFromTime (t : Time) : DateTime := Unix t * 1000 + Nanosecond t / 1000000

/-- What `Location.lookup` of package `time` answers for an instant: the offset
from UTC in seconds that is in force, and the half-open span of instants
`[start, stop)` over which it is in force. -/
structure Zone where
  offset : Int
  start : Int
  stop : Int
deriving DecidableEq, Repr

/-- A `*time.Location`: its `lookup`, from an instant (seconds since the epoch) to
the zone in force at that instant. -/
structure Location where
  lookup : Int → Zone

/-- The last step of Go `time.Date`: from a wall-clock reading in `loc`, counted
in seconds as if it were UTC, to the instant it denotes.  The offset is looked up
at the reading itself and looked up again at the corrected instant when that
falls outside the span of the first answer. -/
def Date (loc : Location) (wall : Int) : Int :=
  let z := loc.lookup wall
  if z.offset ≠ 0 then
    let utc := wall - z.offset
    let offset := if utc < z.start ∨ utc ≥ z.stop then (loc.lookup utc).offset else z.offset
    wall - offset
  else wall

/-- Go `t.AddDate(0, 0, days)` for a time `t` in location `loc`:
`Date(year, month, day+days, hour, min, sec, nsec, loc)` on the calendar fields of
`t` in `loc`.  The fields are those of the wall-clock reading `t.Unix()` plus the
offset in force at `t`; on the Gregorian calendar without leap seconds the same
fields with the day moved by `days` are the reading `days * 86400` seconds away,
which `Date` turns back into an instant.  The nanoseconds are kept. -/
def AddDate (loc : Location) (t : Time) (days : Int) : Time :=
  let wall := Unix t + (loc.lookup (Unix t)).offset
  Date loc (wall + days * 86400) * 1000000000 + Nanosecond t

/-! ## Document store -/

/-- A BSON value as it occurs in the filters and updates of the program. -/
inductive Value where
  | str (s : String)
  | oid (o : ObjectID)
  | date (d : DateTime)
deriving DecidableEq, Repr

/-- The right-hand side of one filter element: a plain value (equality) or the
operator document `bson.D{{"$gte", v}}`. -/
inductive Cond where
  | eq (v : Value)
  | gte (v : Value)
deriving DecidableEq, Repr

/-- A `bson.D` used as query filter: every element has to hold. -/
abbrev Filter := List (String × Cond)

/-- A `bson.D` used under `$set`. -/
abbrev SetDoc := List (String × Value)

/-- The BSON view of a stored slug record.  The struct has no `bson` tags, so the
driver names each field by its lower-cased Go name. -/
def SlugPersistence.field (r : SlugPersistence) (key : String) : Option Value :=
  if key = "id" then some (.oid r.ID)
  else if key = "slug" then some (.str r.Slug)
  else if key = "domain" then some (.str r.Domain)
  else if key = "userid" then some (.str r.UserID)
  else if key = "createdat" then some (.date r.CreatedAt)
  else if key = "updatedat" then some (.date r.UpdatedAt)
  else none

/-- The comparison `$gte` of the store: values of different BSON types never compare. -/
def Value.gte : Value → Value → Bool
  | .date a, .date b => decide (b ≤ a)
  | .oid a, .oid b => decide (b ≤ a)
  | .str a, .str b => !decide (a < b)
  | _, _ => false

/-- Whether a stored record satisfies one filter element. -/
def Cond.holds (r : SlugPersistence) (key : String) : Cond → Bool
  | .eq v => r.field key == some v
  | .gte v =>
    match r.field key with
    | some w => w.gte v
    | none => false

/-- Whether a stored record satisfies a filter. -/
def Filter.matches (f : Filter) (r : SlugPersistence) : Bool :=
  f.all (fun kc => kc.2.holds r kc.1)

/-- One `$set` assignment on a stored record.  Only assignments that keep the
record decodable as a `SlugPersistence` are modelled; any other leaves it as is. -/
def SlugPersistence.set (r : SlugPersistence) (key : String) (v : Value) : SlugPersistence :=
  match v with
  | .str s =>
    if key = "slug" then { r with Slug := s }
    else if key = "domain" then { r with Domain := s }
    else if key = "userid" then { r with UserID := s }
    else r
  | .oid o => if key = "id" then { r with ID := o } else r
  | .date d =>
    if key = "createdat" then { r with CreatedAt := d }
    else if key = "updatedat" then { r with UpdatedAt := d }
    else r

/-- Application of a whole `$set` document, element by element. -/
def SlugPersistence.applySet (r : SlugPersistence) (upd : SetDoc) : SlugPersistence :=
  upd.foldl (fun acc kv => acc.set kv.1 kv.2) r

/-- The database `url-shortner`: its two collections. -/
structure Store where
  slugs : List SlugPersistence
  hits : List EndpointHit
deriving DecidableEq, Repr

/-- The driver call `collection.InsertOne`. -/
def InsertOne {α : Type} (fault : Option GoError) (doc : α) (coll : List α) :
    List α × Option GoError :=
  match fault with
  | some e => (coll, some e)
  | none => (coll ++ [doc], none)

/-- The driver call `collection.CountDocuments`. -/
def CountDocuments (fault : Option GoError) (filter : Filter) (coll : List SlugPersistence) :
    Int × Option GoError :=
  match fault with
  | some e => (0, some e)
  | none => (((coll.filter filter.matches).length : Nat), none)

/-- The driver call `collection.DeleteOne`: removes the first matching document. -/
def DeleteOne (fault : Option GoError) (filter : Filter) (coll : List SlugPersistence) :
    List SlugPersistence × Option GoError :=
  match fault with
  | some e => (coll, some e)
  | none => (coll.eraseP filter.matches, none)

/-- The driver call `collection.UpdateMany` with an update `bson.D{{"$set", upd}}`. -/
def UpdateMany (fault : Option GoError) (filter : Filter) (upd : SetDoc)
    (coll : List SlugPersistence) : List SlugPersistence × Option GoError :=
  match fault with
  | some e => (coll, some e)
  | none => (coll.map (fun r => if filter.matches r then r.applySet upd else r), none)

/-- How a `collection.Find` and the iteration of its cursor can go wrong. -/
inductive FindFault where
  /-- Nothing fails. -/
  | ok
  /-- The call `collection.Find` itself returns an error. -/
  | find (e : GoError)
  /-- The call `cur.Decode` fails on the document at position `k` of the result. -/
  | decode (k : Nat) (e : GoError)
  /-- The cursor stops after `k` documents and `cur.Err()` reports `e`. -/
  | cursor (k : Nat) (e : GoError)
deriving DecidableEq, Repr

/-- A cursor: what `cur.Decode` gives for each document `cur.Next` yields, and
the value of `cur.Err()` once `cur.Next` has returned false. -/
structure Cursor where
  batch : List (Except GoError SlugPersistence)
  err : Option GoError

/-- The driver call `collection.Find`. -/
def Find (fault : FindFault) (filter : Filter) (coll : List SlugPersistence) :
    Except GoError Cursor :=
  let found := coll.filter filter.matches
  match fault with
  | .ok => .ok { batch := found.map .ok, err := none }
  | .find e => .error e
  | .decode k e =>
    .ok { batch := (found.take k).map .ok ++ (if k < found.length then [.error e] else []),
          err := none }
  | .cursor k e => .ok { batch := (found.take k).map .ok, err := some e }

/-! ## The functions of server.go -/

/-- The function `_createSlug` (lines 54-60). -/
def _createSlug (slug : SlugPersistence) (fault : Option GoError) (st : Store) :
    Option GoError × Store :=
  let r := InsertOne fault slug st.slugs
  (r.2, { st with slugs := r.1 })

/-- The function `createSlug` (lines 62-71); `tCreated` and `tUpdated` are the two
readings of `time.Now()`, in the order the composite literal takes them. -/
def createSlug (slug : Slug) (tCreated tUpdated : Time) (fault : Option GoError) (st : Store) :
    Option GoError × Store :=
  _createSlug
    { ID := slug.ID
      Slug := slug.Slug
      Domain := slug.Domain
      UserID := slug.UserID
      CreatedAt := NewDateTimeFromTime tCreated
      UpdatedAt := NewDateTimeFromTime tUpdated } fault st

/-- The filter built by `countSlugsWithin30Days` (lines 77-91). -/
def countFilter (userID : String) (loc : Location) (now : Time) : Filter :=
  [("userid", .eq (.str userID)),
   ("createdat", .gte (.date (NewDateTimeFromTime (AddDate loc now (-30)))))]

/-- The function `countSlugsWithin30Days` (lines 73-97); `now` is the reading of
`time.Now()` and `loc` the zone it carries, `time.Local`. -/
def countSlugsWithin30Days (userID : String) (loc : Location) (now : Time)
    (fault : Option GoError) (st : Store) : Int × Option GoError :=
  let r := CountDocuments fault (countFilter userID loc now) st.slugs
  match r.2 with
  | some e => (0, some e)
  | none => (r.1, none)

/-- The filter shared by `deleteSlug` (lines 103-109) and `_updateSlug` (lines 118-124). -/
def ownerFilter (uid : String) (slug_id : ObjectID) : Filter :=
  [("userid", .eq (.str uid)), ("id", .eq (.oid slug_id))]

/-- The function `deleteSlug` (lines 99-113). -/
def deleteSlug (slug_id : ObjectID) (uid : String) (fault : Option GoError) (st : Store) :
    Option GoError × Store :=
  let r := DeleteOne fault (ownerFilter uid slug_id) st.slugs
  (r.2, { st with slugs := r.1 })

/-- The `$set` document built by `_updateSlug` (lines 125-134). -/
def updater (slug : Slug) (now : Time) : SetDoc :=
  [("slug", .str slug.Slug), ("domain", .str slug.Domain),
   ("updatedat", .date (NewDateTimeFromTime now))]

/-- The function `_updateSlug` (lines 114-137). -/
def _updateSlug (slug : Slug) (now : Time) (fault : Option GoError) (st : Store) :
    Option GoError × Store :=
  let r := UpdateMany fault (ownerFilter slug.UserID slug.ID) (updater slug now) st.slugs
  (r.2, { st with slugs := r.1 })

/-- The function `updateSlug` (lines 138-140). -/
def updateSlug (slug : Slug) (now : Time) (fault : Option GoError) (st : Store) :
    Option GoError × Store :=
  _updateSlug slug now fault st

/-- The function `createHit` (lines 142-151). -/
def createHit (slug : Slug) (now : Time) (fault : Option GoError) (st : Store) :
    Option GoError × Store :=
  let r := InsertOne fault { Slug := slug, HittedAt := NewDateTimeFromTime now } st.hits
  (r.2, { st with hits := r.1 })

/-- The loop `for cur.Next(ctx)` of `filterSlugs` (lines 213-221): the slice built
so far, and the decode error that ended the loop early, if any. -/
def drain : List (Except GoError SlugPersistence) → GoSlice SlugPersistence →
    GoSlice SlugPersistence × Option GoError
  | [], slugs => (slugs, none)
  | .error e :: _, slugs => (slugs, some e)
  | .ok t :: rest, slugs => drain rest (slugs.append t)

/-- The function `filterSlugs` (lines 202-235). -/
def filterSlugs (filter : Filter) (fault : FindFault) (st : Store) :
    GoSlice SlugPersistence × Option GoError :=
  match Find fault filter st.slugs with
  | .error e => (none, some e)
  | .ok cur =>
    match drain cur.batch none with
    | (slugs, some e) => (slugs, some e)
    | (slugs, none) =>
      match cur.err with
      | some e => (slugs, some e)
      | none => if slugs.len = 0 then (some [], none) else (slugs, none)

/-- The function `_getSlugs` (lines 153-159). -/
def _getSlugs (uid : String) (fault : FindFault) (st : Store) :
    GoSlice SlugPersistence × Option GoError :=
  filterSlugs [("userid", .eq (.str uid))] fault st

/-- The function `getSlugs` (lines 160-175). -/
def getSlugs (uid : String) (fault : FindFault) (st : Store) : GoSlice Slug × Option GoError :=
  match _getSlugs uid fault st with
  | (_, some e) => (none, some e)
  | (slugs_persist, none) =>
    (slugs_persist.elems.foldl
      (fun slugs slug_persist =>
        slugs.append
          { ID := slug_persist.ID
            Slug := slug_persist.Slug
            Domain := slug_persist.Domain
            UserID := slug_persist.UserID })
      GoSlice.make, none)

/-- The function `_getSlug` (lines 176-187): the length test precedes any look at `err`. -/
def _getSlug (slug : String) (fault : FindFault) (st : Store) :
    Option SlugPersistence × Option GoError :=
  match filterSlugs [("slug", .eq (.str slug))] fault st with
  | (none, _) => (none, some (.errorsNew "Slug not found"))
  | (some [], _) => (none, some (.errorsNew "Slug not found"))
  | (some (p :: ps), err) => (some ((p :: ps).getLast (List.cons_ne_nil p ps)), err)

/-- The function `getSlug` (lines 188-200).  With a nil error `_getSlug` always
hands over a record; were it nil, the dereference would stop the handler. -/
def getSlug (slug : String) (fault : FindFault) (st : Store) : Option Slug × Option GoError :=
  match _getSlug slug fault st with
  | (_, some e) => (none, some e)
  | (slug_persist, none) =>
    (slug_persist.map (fun p =>
      { ID := p.ID, Slug := p.Slug, Domain := p.Domain, UserID := p.UserID }), none)

/-- A user record of the identity provider. -/
structure UserRecord where
  UID : String
deriving DecidableEq, Repr

/-- The predicate `auth.IsUserNotFound` of the firebase SDK. -/
def IsUserNotFound : Option GoError → Bool
  | some (.firebase code) => code == "user-not-found"
  | _ => false

/-- The function `checkUserExists` (lines 281-290); `reply` is what
`firebaseAuth.GetUser` returned for `userid`. -/
def checkUserExists (reply : Option UserRecord × Option GoError) : Bool × Option GoError :=
  if IsUserNotFound reply.2 then (false, none)
  else
    match reply.2 with
    | some e => (false, some e)
    | none => (reply.1.isSome, none)

/-- The value of one hexadecimal digit, as `encoding/hex` reads it. -/
def fromHexChar (c : Char) : Option Nat :=
  if 48 ≤ c.toNat ∧ c.toNat ≤ 57 then some (c.toNat - 48)
  else if 97 ≤ c.toNat ∧ c.toNat ≤ 102 then some (c.toNat - 87)
  else if 65 ≤ c.toNat ∧ c.toNat ≤ 70 then some (c.toNat - 55)
  else none

/-- The driver function `primitive.ObjectIDFromHex`: the string has to be 24 bytes
long and made of hexadecimal digits; on failure the nil identifier comes with the error. -/
def ObjectIDFromHex (s : String) : ObjectID × Option GoError :=
  if s.utf8ByteSize ≠ 24 then (0, some .invalidHex)
  else
    match s.data.mapM fromHexChar with
    | none => (0, some .invalidHex)
    | some ds => (ds.foldl (fun acc d => acc * 16 + d) 0, none)

/-! ## The route handlers of `main` -/

/-- What the world outside the program answers during one request. -/
structure Env where
  /-- The answer of `firebaseAuth.GetUser` for a user id. -/
  GetUser : String → Option UserRecord × Option GoError
  /-- The value of `primitive.NewObjectID()` (line 366). -/
  NewObjectID : ObjectID
  /-- The time zone of the process, `time.Local`, which `time.Now()` carries. -/
  Local : Location
  /-- The reading of `time.Now()` at line 87. -/
  nowCutoff : Time
  /-- The reading of `time.Now()` at line 68. -/
  nowCreated : Time
  /-- The reading of `time.Now()` at line 69. -/
  nowUpdated : Time
  /-- The reading of `time.Now()` at line 133. -/
  nowUpdate : Time
  /-- The reading of `time.Now()` at line 148. -/
  nowHit : Time
  /-- Whether `CountDocuments` (line 92) fails. -/
  countFault : Option GoError
  /-- Whether `InsertOne` into `slugs` (line 58) fails. -/
  insertFault : Option GoError
  /-- Whether `DeleteOne` (line 111) fails. -/
  deleteFault : Option GoError
  /-- Whether `UpdateMany` (line 135) fails. -/
  updateFault : Option GoError
  /-- Whether `InsertOne` into `hits` (line 146) fails. -/
  hitFault : Option GoError
  /-- Whether `Find` or its cursor (lines 209-225) fails. -/
  findFault : FindFault

/-- The body handed to `ctx.JSON`. -/
inductive Body where
  /-- The object `gin.H{"err": e}`. -/
  | err (e : GoError)
  /-- The error value itself (line 341). -/
  | rawErr (e : GoError)
  /-- The object `gin.H{}`. -/
  | emptyH
  /-- The document `bson.D{}`. -/
  | emptyD
  /-- One slug. -/
  | slug (s : Slug)
  /-- A slice of slugs. -/
  | slugs (l : GoSlice Slug)
deriving DecidableEq, Repr

/-- A call `ctx.JSON(status, body)`. -/
structure Response where
  status : Nat
  body : Body
deriving DecidableEq, Repr

/-- The handler of `GET /slugs` (lines 305-322). -/
def handleGetSlugs (env : Env) (userid : String) (st : Store) : Response × Store :=
  match checkUserExists (env.GetUser userid) with
  | (_, some e) => (⟨500, .err e⟩, st)
  | (false, none) => (⟨400, .err (.errorsNew "USER not found")⟩, st)
  | (true, none) =>
    match getSlugs userid env.findFault st with
    | (_, some e) => (⟨500, .err e⟩, st)
    | (slugs, none) => (⟨200, .slugs slugs⟩, st)

/-- The handler of `GET /slug` (lines 323-336).  The last case (no slug and no
error) never arises; it stands for the nil dereference, which the recovery
middleware of `gin.Default()` answers with status 500. -/
def handleGetSlug (env : Env) (slug : String) (st : Store) : Response × Store :=
  match getSlug slug env.findFault st with
  | (_, some _) => (⟨400, .emptyH⟩, st)
  | (some slug_data, none) =>
    match createHit slug_data env.nowHit env.hitFault st with
    | (some e, st1) => (⟨500, .err e⟩, st1)
    | (none, st1) => (⟨200, .slug slug_data⟩, st1)
  | (none, none) => (⟨500, .emptyH⟩, st)

/-- The handler of `POST /slugs` (lines 337-379); `body` is the outcome of
`ctx.ShouldBindBodyWith`. -/
def handlePostSlugs (env : Env) (body : Except GoError SlugCreate) (st : Store) :
    Response × Store :=
  match body with
  | .error e => (⟨400, .rawErr e⟩, st)
  | .ok body =>
    match checkUserExists (env.GetUser body.UserID) with
    | (_, some e) => (⟨500, .err e⟩, st)
    | (false, none) => (⟨400, .err (.errorsNew "USER not found")⟩, st)
    | (true, none) =>
      match countSlugsWithin30Days body.UserID env.Local env.nowCutoff env.countFault st with
      | (_, some e) => (⟨500, .err e⟩, st)
      | (count, none) =>
        if count ≥ 30 then (⟨400, .err (.errorsNew "limit of slugs reached")⟩, st)
        else
          let slug : Slug :=
            { ID := env.NewObjectID, UserID := body.UserID, Slug := body.Slug,
              Domain := body.Domain }
          match createSlug slug env.nowCreated env.nowUpdated env.insertFault st with
          | (some e, st1) => (⟨500, .err e⟩, st1)
          | (none, st1) => (⟨200, .slug slug⟩, st1)

/-- The handler of `DELETE /slugs` (lines 380-406). -/
def handleDeleteSlugs (env : Env) (uid id_str : String) (st : Store) : Response × Store :=
  match checkUserExists (env.GetUser uid) with
  | (_, some e) => (⟨500, .err e⟩, st)
  | (false, none) => (⟨400, .err (.errorsNew "USER not found")⟩, st)
  | (true, none) =>
    match ObjectIDFromHex id_str with
    | (_, some e) => (⟨500, .err e⟩, st)
    | (id, none) =>
      match deleteSlug id uid env.deleteFault st with
      | (some e, st1) => (⟨500, .err e⟩, st1)
      | (none, st1) => (⟨200, .emptyD⟩, st1)

/-- The handler of `PUT /slugs` (lines 407-431); `body` is the outcome of
`ctx.ShouldBindBodyWith`. -/
def handlePutSlugs (env : Env) (body : Except GoError Slug) (st : Store) : Response × Store :=
  match body with
  | .error e => (⟨400, .err e⟩, st)
  | .ok slug =>
    match checkUserExists (env.GetUser slug.UserID) with
    | (_, some e) => (⟨500, .err e⟩, st)
    | (false, none) => (⟨400, .err (.errorsNew "USER not found")⟩, st)
    | (true, none) =>
      match updateSlug slug env.nowUpdate env.updateFault st with
      | (some e, st1) => (⟨500, .err e⟩, st1)
      | (none, st1) => (⟨200, .emptyD⟩, st1)

/-! ## Vocabulary of the properties -/

/-- The start of the trailing thirty days at `now`, as a `createdat` value: the
same wall-clock time thirty calendar days earlier in the zone of the server. -/
def thirtyDaysBefore (loc : Location) (now : Time) : DateTime :=
  NewDateTimeFromTime (AddDate loc now (-30))

/-- The number the rate limit speaks of: the records of user `uid` whose `createdat`
is at or after `now` minus thirty days. -/
def recentCount (st : Store) (uid : String) (loc : Location) (now : Time) : Nat :=
  (st.slugs.filter (fun r =>
    decide (r.UserID = uid ∧ thirtyDaysBefore loc now ≤ r.CreatedAt))).length

/-- Whether a record is the one an update or delete for `(id, uid)` addresses. -/
def owned (id : ObjectID) (uid : String) (r : SlugPersistence) : Bool :=
  decide (r.ID = id ∧ r.UserID = uid)

/-- The user exists: `checkUserExists` answers true without an error. -/
def userExists (env : Env) (uid : String) : Prop :=
  checkUserExists (env.GetUser uid) = (true, none)

instance userExists.decidable (env : Env) (uid : String) : Decidable (userExists env uid) := by
  unfold userExists; infer_instance

/-- One mutation of the slugs collection, with the clock readings and the fault
of its driver call. -/
inductive Op where
  | create (slug : Slug) (tCreated tUpdated : Time) (fault : Option GoError)
  | update (slug : Slug) (now : Time) (fault : Option GoError)
  | delete (slug_id : ObjectID) (uid : String) (fault : Option GoError)
deriving DecidableEq, Repr

/-- The store after one mutation. -/
def Op.apply : Op → Store → Store
  | .create slug tCreated tUpdated fault, st => (createSlug slug tCreated tUpdated fault st).2
  | .update slug now fault, st => (_updateSlug slug now fault st).2
  | .delete slug_id uid fault, st => (deleteSlug slug_id uid fault st).2

/-- The clock readings one mutation takes, in the order it takes them. -/
def Op.readings : Op → List Time
  | .create _ tCreated tUpdated _ => [tCreated, tUpdated]
  | .update _ now _ => [now]
  | .delete _ _ _ => []

/-- The store after a sequence of mutations, first to last. -/
def run : List Op → Store → Store
  | [], st => st
  | op :: ops, st => run ops (op.apply st)

/-- All clock readings of a sequence of mutations, in the order they are taken. -/
def clockReadings : List Op → List Time
  | [] => []
  | op :: ops => op.readings ++ clockReadings ops

/-- The database before anything was stored. -/
def emptyStore : Store := { slugs := [], hits := [] }

/-! ## Sample data -/

/-- The zone UTC: offset zero at every instant. -/
def utc : Location :=
  { lookup := fun _ => { offset := 0, start := -9223372036854775808, stop := 9223372036854775807 } }

/-- The zone America/New_York around 2023: daylight time (UTC-4) from 12 March
2023, 07:00 UTC to 5 November 2023, 06:00 UTC, standard time (UTC-5) before and
after. -/
def newYork : Location :=
  { lookup := fun sec =>
      if sec < 1678604400 then { offset := -18000, start := 1667714400, stop := 1678604400 }
      else if sec < 1699164000 then { offset := -14400, start := 1678604400, stop := 1699164000 }
      else { offset := -18000, start := 1699164000, stop := 1710054000 } }

/-- An environment in which user `u1` exists, nothing fails, the server runs in
New York and the clock stands at 14 November 2023, 22:13:20 UTC and a few
milliseconds, nine days after the end of daylight time. -/
def demoEnv : Env :=
  { GetUser := fun uid =>
      if uid = "u1" then (some { UID := uid }, none) else (none, some (.firebase "user-not-found"))
    NewObjectID := 4096
    Local := newYork
    nowCutoff := 1700000000000000000
    nowCreated := 1700000000001000000
    nowUpdated := 1700000000002000000
    nowUpdate := 1700000000003000000
    nowHit := 1700000000004000000
    countFault := none
    insertFault := none
    deleteFault := none
    updateFault := none
    hitFault := none
    findFault := .ok }

/-- The `k`-th record of user `u1`, created one second before the sample clock. -/
def demoRecord (k : Nat) : SlugPersistence :=
  { ID := k + 1, Slug := "abc", Domain := "https://x.com", UserID := "u1",
    CreatedAt := 1699999999000, UpdatedAt := 1699999999000 }

/-- A store holding `n` recent records of user `u1`. -/
def demoStore (n : Nat) : Store :=
  { slugs := (List.range n).map demoRecord, hits := [] }

/-- Twenty-nine recent records of user `u1` and one created thirty days and thirty
minutes before the sample clock: inside the thirty calendar days in New York,
whose window is an hour longer across the end of daylight time. -/
def dstStore : Store :=
  { slugs := (demoStore 29).slugs ++
      [{ ID := 100, Slug := "old", Domain := "https://o.com", UserID := "u1",
         CreatedAt := 1697406200000, UpdatedAt := 1697406200000 }],
    hits := [] }

/-- Twenty-nine recent records of user `u1` and one created thirty days and ninety
minutes before the sample clock, outside the window in New York as well. -/
def staleStore : Store :=
  { slugs := (demoStore 29).slugs ++
      [{ ID := 100, Slug := "old", Domain := "https://o.com", UserID := "u1",
         CreatedAt := 1697402600000, UpdatedAt := 1697402600000 }],
    hits := [] }

/-- The request body of the sample create. -/
def demoCreate : SlugCreate := { Slug := "abc", Domain := "https://x.com", UserID := "u1" }

/-- Three records: two users hold a record with the same id 7, and user `u1`
holds a second record. -/
def sharedIdStore : Store :=
  { slugs :=
      [{ ID := 7, Slug := "abc", Domain := "https://x.com", UserID := "u1",
         CreatedAt := 1699999999000, UpdatedAt := 1699999999000 },
       { ID := 7, Slug := "abc", Domain := "https://y.com", UserID := "u2",
         CreatedAt := 1699999999000, UpdatedAt := 1699999999000 },
       { ID := 8, Slug := "def", Domain := "https://z.com", UserID := "u1",
         CreatedAt := 1699999999000, UpdatedAt := 1699999999000 }],
    hits := [] }

/-- The update of record 7 of user `u1` used in the samples. -/
def demoUpdate : Slug := { ID := 7, Slug := "new", Domain := "https://n.com", UserID := "u1" }

/-- A create, an update of the created record and a delete of another one, with
clock readings that grow. -/
def demoOps : List Op :=
  [.create demoUpdate 1700000000001000000 1700000000002000000 none,
   .update demoUpdate 1700000000003000000 none,
   .delete 8 "u1" none]

/-- A create during which the wall clock is set back by one millisecond between
the two readings. -/
def steppedBackOps : List Op :=
  [.create demoUpdate 1700000000002000000 1700000000001000000 none]

/-- A create, then an update of the created record after the wall clock was set
back by four milliseconds. -/
def setBackUpdateOps : List Op :=
  [.create demoUpdate 1700000000005000000 1700000000005000000 none,
   .update demoUpdate 1700000000001000000 none]

/-! ## Facts about the store model -/

theorem millis_mono (s t : Int) (h : s ≤ t) :
    s / 1000000000 * 1000 + s % 1000000000 / 1000000
      ≤ t / 1000000000 * 1000 + t % 1000000000 / 1000000 := by
  omega

theorem NewDateTimeFromTime_mono {s t : Time} (h : s ≤ t) :
    NewDateTimeFromTime s ≤ NewDateTimeFromTime t :=
  millis_mono s t h

theorem Date_fixed_offset (loc : Location) (c : Int)
    (hFixed : ∀ s, (loc.lookup s).offset = c) (wall : Int) :
    Date loc wall = wall - c := by
  unfold Date
  by_cases hc : c = 0
  · simp [hFixed, hc]
  · simp [hFixed, hc]

theorem seconds_nanos (t d c : Int) :
    (t / 1000000000 + c + d * 86400 - c) * 1000000000 + t % 1000000000
      = t + d * 86400 * 1000000000 := by
  omega

/-- In a zone whose offset never changes, `AddDate(0, 0, days)` moves the instant
by `days` times twenty-four hours. -/
theorem AddDate_fixed_offset (loc : Location) (c : Int)
    (hFixed : ∀ s, (loc.lookup s).offset = c) (t : Time) (days : Int) :
    AddDate loc t days = t + days * 86400 * 1000000000 := by
  simp only [AddDate, Date_fixed_offset loc c hFixed, hFixed]
  exact seconds_nanos t days c

theorem millis_shift (t : Int) :
    (t + -30 * 86400 * 1000000000) / 1000000000 * 1000
        + (t + -30 * 86400 * 1000000000) % 1000000000 / 1000000
      = t / 1000000000 * 1000 + t % 1000000000 / 1000000 - 2592000000 := by
  omega

/-- In a zone whose offset never changes, the window of the rate limit starts
2592000000 milliseconds (thirty times twenty-four hours) before `now`. -/
theorem thirtyDaysBefore_fixed_offset (loc : Location) (c : Int)
    (hFixed : ∀ s, (loc.lookup s).offset = c) (now : Time) :
    thirtyDaysBefore loc now = NewDateTimeFromTime now - 2592000000 := by
  unfold thirtyDaysBefore
  rw [AddDate_fixed_offset loc c hFixed]
  exact millis_shift now

/-- In New York on 14 November 2023 the window starts an hour earlier than thirty
times twenty-four hours before `now`, daylight time having ended in between; in
UTC it starts exactly thirty times twenty-four hours before. -/
theorem thirtyDaysBefore_samples :
    AddDate newYork 1700000000000000000 (-30) = 1697404400000000000 ∧
    thirtyDaysBefore newYork 1700000000000000000 = 1700000000000 - 2592000000 - 3600000 ∧
    thirtyDaysBefore utc 1700000000000000000 = 1700000000000 - 2592000000 := by
  decide

theorem matches_ownerFilter (uid : String) (id : ObjectID) (r : SlugPersistence) :
    (ownerFilter uid id).matches r = owned id uid r := by
  rw [Bool.eq_iff_iff]
  simp [ownerFilter, owned, Filter.matches, Cond.holds, SlugPersistence.field, and_comm]

theorem matches_countFilter (uid : String) (loc : Location) (now : Time)
    (r : SlugPersistence) :
    (countFilter uid loc now).matches r =
      decide (r.UserID = uid ∧ thirtyDaysBefore loc now ≤ r.CreatedAt) := by
  rw [Bool.eq_iff_iff]
  simp [countFilter, Filter.matches, Cond.holds, SlugPersistence.field, Value.gte,
    thirtyDaysBefore]

theorem matches_userFilter (uid : String) (r : SlugPersistence) :
    Filter.matches [("userid", .eq (.str uid))] r = decide (r.UserID = uid) := by
  rw [Bool.eq_iff_iff]
  simp [Filter.matches, Cond.holds, SlugPersistence.field]

theorem matches_slugFilter (slug : String) (r : SlugPersistence) :
    Filter.matches [("slug", .eq (.str slug))] r = decide (r.Slug = slug) := by
  rw [Bool.eq_iff_iff]
  simp [Filter.matches, Cond.holds, SlugPersistence.field]

theorem applySet_updater (slug : Slug) (now : Time) (r : SlugPersistence) :
    r.applySet (updater slug now) =
      { r with Slug := slug.Slug, Domain := slug.Domain,
               UpdatedAt := NewDateTimeFromTime now } := by
  simp [SlugPersistence.applySet, updater, SlugPersistence.set]

theorem countSlugsWithin30Days_ok (uid : String) (loc : Location) (now : Time) (st : Store) :
    countSlugsWithin30Days uid loc now none st = ((recentCount st uid loc now : Int), none) := by
  have h : (countFilter uid loc now).matches = fun r =>
      decide (r.UserID = uid ∧ thirtyDaysBefore loc now ≤ r.CreatedAt) :=
    funext (matches_countFilter uid loc now)
  simp [countSlugsWithin30Days, CountDocuments, recentCount, h]

/-! ## Creation and the rate limit -/

/-- C1. For a create request whose user exists and a store in which the user has
at least 30 records (exactly 30 included) with `createdat` at or after `now`
minus 30 days, the days being calendar days in the zone of the server as
`now.AddDate(0, 0, -30)` counts them, `POST /slugs` leaves both collections as
they were, and, the count query succeeding, answers 400 with the limit error.
With fewer than 30 such records (29 in particular) it does not answer 400. -/
theorem rate_limit_rejection (env : Env) (body : SlugCreate) (st : Store)
    (hUser : userExists env body.UserID) :
    (30 ≤ recentCount st body.UserID env.Local env.nowCutoff →
      (handlePostSlugs env (.ok body) st).2 = st ∧
      (env.countFault = none →
        handlePostSlugs env (.ok body) st =
          (⟨400, .err (.errorsNew "limit of slugs reached")⟩, st))) ∧
    (recentCount st body.UserID env.Local env.nowCutoff < 30 → env.countFault = none →
      (handlePostSlugs env (.ok body) st).1.status ≠ 400) := by
  unfold userExists at hUser
  constructor
  · intro h
    have h30 : (30 : Int) ≤ (recentCount st body.UserID env.Local env.nowCutoff : Int) := by
      omega
    have hok : env.countFault = none →
        handlePostSlugs env (.ok body) st =
          (⟨400, .err (.errorsNew "limit of slugs reached")⟩, st) := by
      intro hCount
      simp [handlePostSlugs, hUser, hCount, countSlugsWithin30Days_ok, h30]
    refine ⟨?_, hok⟩
    cases hCount : env.countFault with
    | none => rw [hok hCount]
    | some e => simp [handlePostSlugs, hUser, hCount, countSlugsWithin30Days, CountDocuments]
  · intro h hCount
    have h30 : ¬ (30 : Int) ≤ (recentCount st body.UserID env.Local env.nowCutoff : Int) := by
      omega
    simp only [handlePostSlugs, hUser, hCount, countSlugsWithin30Days_ok, ge_iff_le, h30,
      if_false]
    cases hI : env.insertFault <;> simp [createSlug, _createSlug, InsertOne]

/-- Witness of C1 at the boundary, server in New York: thirty recent records give
400 and change nothing, and so do twenty-nine recent records with one that is
thirty days and thirty minutes old; twenty-nine recent records alone do not give
400. -/
theorem rate_limit_rejection_witness :
    userExists demoEnv demoCreate.UserID ∧ demoEnv.countFault = none ∧
    recentCount (demoStore 30) "u1" newYork 1700000000000000000 = 30 ∧
    handlePostSlugs demoEnv (.ok demoCreate) (demoStore 30) =
      (⟨400, .err (.errorsNew "limit of slugs reached")⟩, demoStore 30) ∧
    recentCount dstStore "u1" newYork 1700000000000000000 = 30 ∧
    handlePostSlugs demoEnv (.ok demoCreate) dstStore =
      (⟨400, .err (.errorsNew "limit of slugs reached")⟩, dstStore) ∧
    recentCount (demoStore 29) "u1" newYork 1700000000000000000 = 29 ∧
    (handlePostSlugs demoEnv (.ok demoCreate) (demoStore 29)).1.status ≠ 400 :=
  ⟨by decide, rfl, by decide,
    ((rate_limit_rejection demoEnv demoCreate (demoStore 30) (by decide)).1 (by decide)).2 rfl,
    by decide,
    ((rate_limit_rejection demoEnv demoCreate dstStore (by decide)).1 (by decide)).2 rfl,
    by decide,
    (rate_limit_rejection demoEnv demoCreate (demoStore 29) (by decide)).2 (by decide) rfl⟩

/-- C2. For a create request whose user exists, who has fewer than 30 records
with `createdat` at or after `now` minus 30 days (calendar days in the zone of
the server, as `now.AddDate(0, 0, -30)` counts them), and whose store calls
succeed, `POST /slugs` answers 200 with the slug made of the generated id and the fields of the request,
and the slugs collection is the old one followed by exactly one record with that
id, slug, domain and user id, stamped from the two clock readings of `createSlug`;
the hits collection is untouched. -/
theorem create_success (env : Env) (body : SlugCreate) (st : Store)
    (hUser : userExists env body.UserID)
    (hRecent : recentCount st body.UserID env.Local env.nowCutoff < 30)
    (hCount : env.countFault = none) (hInsert : env.insertFault = none) :
    (handlePostSlugs env (.ok body) st).1 =
      ⟨200, .slug { ID := env.NewObjectID, Slug := body.Slug, Domain := body.Domain,
                    UserID := body.UserID }⟩ ∧
    (handlePostSlugs env (.ok body) st).2.slugs =
      st.slugs ++ [{ ID := env.NewObjectID, Slug := body.Slug, Domain := body.Domain,
                     UserID := body.UserID,
                     CreatedAt := NewDateTimeFromTime env.nowCreated,
                     UpdatedAt := NewDateTimeFromTime env.nowUpdated }] ∧
    (handlePostSlugs env (.ok body) st).2.hits = st.hits := by
  unfold userExists at hUser
  have h30 : ¬ (30 : Int) ≤ (recentCount st body.UserID env.Local env.nowCutoff : Int) := by
    omega
  simp [handlePostSlugs, hUser, hCount, hInsert, countSlugsWithin30Days_ok, h30,
    createSlug, _createSlug, InsertOne]

/-- Witness of C2, server in New York: twenty-nine recent records and one that is
thirty days and ninety minutes old leave room for the sample create, which
answers 200 and appends its record. -/
theorem create_success_witness :
    userExists demoEnv demoCreate.UserID ∧
    recentCount staleStore "u1" newYork 1700000000000000000 = 29 ∧
    demoEnv.countFault = none ∧ demoEnv.insertFault = none ∧
    (handlePostSlugs demoEnv (.ok demoCreate) staleStore).1 =
      ⟨200, .slug { ID := 4096, Slug := "abc", Domain := "https://x.com", UserID := "u1" }⟩ ∧
    (handlePostSlugs demoEnv (.ok demoCreate) staleStore).2.slugs =
      staleStore.slugs ++ [{ ID := 4096, Slug := "abc", Domain := "https://x.com",
                             UserID := "u1", CreatedAt := 1700000000001,
                             UpdatedAt := 1700000000002 }] :=
  ⟨by decide, by decide, rfl, rfl,
    (create_success demoEnv demoCreate staleStore (by decide) (by decide) rfl rfl).1,
    (create_success demoEnv demoCreate staleStore (by decide) (by decide) rfl rfl).2.1⟩

/-! ## Lookup, listing and the authorization gate -/

theorem drain_some (l acc : List SlugPersistence) :
    drain (l.map .ok) (some acc) = (some (acc ++ l), none) := by
  induction l generalizing acc with
  | nil => simp [drain]
  | cons a l ih => simp [drain, GoSlice.append, ih]

theorem drain_none (l : List SlugPersistence) :
    drain (l.map .ok) none = (if l = [] then none else some l, none) := by
  cases l with
  | nil => simp [drain]
  | cons a l => simp [drain, GoSlice.append, drain_some]

theorem filterSlugs_ok (filter : Filter) (st : Store) :
    filterSlugs filter .ok st = (some (st.slugs.filter filter.matches), none) := by
  by_cases h : st.slugs.filter filter.matches = []
  · simp [filterSlugs, Find, drain, h, GoSlice.len]
  · simp [filterSlugs, Find, drain_none, h, GoSlice.len]

theorem filterSlugs_no_match (filter : Filter) (fault : FindFault) (st : Store)
    (h : st.slugs.filter filter.matches = []) :
    (filterSlugs filter fault st).1 = none ∨ (filterSlugs filter fault st).1 = some [] := by
  cases fault <;> simp [filterSlugs, Find, h, drain, GoSlice.len]

theorem _getSlug_no_match (slug : String) (fault : FindFault) (st : Store)
    (h : st.slugs.filter (fun r => decide (r.Slug = slug)) = []) :
    _getSlug slug fault st = (none, some (.errorsNew "Slug not found")) := by
  have hf : Filter.matches [("slug", .eq (.str slug))] = fun r => decide (r.Slug = slug) :=
    funext (matches_slugFilter slug)
  have h2 := filterSlugs_no_match [("slug", .eq (.str slug))] fault st (by rw [hf]; exact h)
  unfold _getSlug
  rcases h2 with h2 | h2
  · split <;> simp_all
  · split <;> simp_all

theorem foldl_append_view (f : SlugPersistence → Slug) (l : List SlugPersistence)
    (acc : List Slug) :
    l.foldl (fun slugs p => GoSlice.append slugs (f p)) (some acc)
      = some (acc ++ l.map f) := by
  induction l generalizing acc with
  | nil => simp
  | cons a l ih =>
    rw [List.foldl_cons]
    show List.foldl _ (some (acc ++ [f a])) l = _
    rw [ih]
    simp

theorem getSlugs_ok (uid : String) (st : Store) :
    getSlugs uid .ok st =
      (some ((st.slugs.filter (fun r => decide (r.UserID = uid))).map (fun r =>
        { ID := r.ID, Slug := r.Slug, Domain := r.Domain, UserID := r.UserID })), none) := by
  have hf : Filter.matches [("userid", .eq (.str uid))] = fun r => decide (r.UserID = uid) :=
    funext (matches_userFilter uid)
  simp only [getSlugs, _getSlugs, filterSlugs_ok, hf, GoSlice.elems, GoSlice.make]
  rw [foldl_append_view]
  simp

theorem _getSlug_ok (slug : String) (st : Store) (p : SlugPersistence)
    (h : (st.slugs.filter (fun r => decide (r.Slug = slug))).getLast? = some p) :
    _getSlug slug .ok st = (some p, none) := by
  have hf : Filter.matches [("slug", .eq (.str slug))] = fun r => decide (r.Slug = slug) :=
    funext (matches_slugFilter slug)
  unfold _getSlug
  rw [filterSlugs_ok, hf]
  cases hl : st.slugs.filter (fun r => decide (r.Slug = slug)) with
  | nil => rw [hl] at h; simp at h
  | cons a l =>
    rw [hl, List.getLast?_eq_getLast _ (List.cons_ne_nil a l)] at h
    simpa using h

/-- C3. Resolution of a token.  If no slug record has the token, the lookup fails
with the not-found error whatever the store does, `GET /slug` answers 400 and no
hit is written.  If some record has it and the store calls succeed, there is a
last record `p` among those the find yields for that token, the lookup returns
the slug with the id, slug, domain and user id of `p`, `GET /slug` answers 200
with it, exactly one hit embedding that same slug is appended to the hits
collection, and the slugs collection is as before. -/
theorem resolve_slug (env : Env) (slug : String) (st : Store) :
    ((∀ r ∈ st.slugs, r.Slug ≠ slug) →
        getSlug slug env.findFault st = (none, some (.errorsNew "Slug not found")) ∧
        handleGetSlug env slug st = (⟨400, .emptyH⟩, st)) ∧
    ((∃ r ∈ st.slugs, r.Slug = slug) → env.findFault = .ok → env.hitFault = none →
        ∃ p, (st.slugs.filter (fun r => decide (r.Slug = slug))).getLast? = some p ∧
          getSlug slug env.findFault st =
            (some { ID := p.ID, Slug := p.Slug, Domain := p.Domain, UserID := p.UserID },
             none) ∧
          handleGetSlug env slug st =
            (⟨200, .slug { ID := p.ID, Slug := p.Slug, Domain := p.Domain,
                           UserID := p.UserID }⟩,
             { slugs := st.slugs,
               hits := st.hits ++
                 [{ Slug := { ID := p.ID, Slug := p.Slug, Domain := p.Domain,
                              UserID := p.UserID },
                    HittedAt := NewDateTimeFromTime env.nowHit }] })) := by
  constructor
  · intro hno
    have hnil : st.slugs.filter (fun r => decide (r.Slug = slug)) = [] := by
      simpa [List.filter_eq_nil_iff] using hno
    have hg := _getSlug_no_match slug env.findFault st hnil
    simp [handleGetSlug, getSlug, hg]
  · rintro ⟨r, hr, hrs⟩ hfind hhit
    have hne : st.slugs.filter (fun r => decide (r.Slug = slug)) ≠ [] := by
      intro hnil
      have : r ∈ st.slugs.filter (fun r => decide (r.Slug = slug)) := by
        simp [List.mem_filter, hr, hrs]
      rw [hnil] at this
      simp at this
    obtain ⟨p, hp⟩ : ∃ p, (st.slugs.filter (fun r => decide (r.Slug = slug))).getLast? = some p :=
      ⟨_, List.getLast?_eq_getLast _ hne⟩
    have hg := _getSlug_ok slug st p hp
    refine ⟨p, hp, ?_, ?_⟩
    · simp [getSlug, hfind, hg]
    · simp [handleGetSlug, getSlug, hfind, hhit, hg, createHit, InsertOne]

/-- Witness of C3: an unknown token gives 400 and no hit; the token `abc`, held by
the records 1 and 2, gives 200 with the fields of record 2, the last one, and one
hit holding them. -/
theorem resolve_slug_witness :
    (∀ r ∈ (demoStore 2).slugs, r.Slug ≠ "zzz") ∧
    handleGetSlug demoEnv "zzz" (demoStore 2) = (⟨400, .emptyH⟩, demoStore 2) ∧
    (∃ r ∈ (demoStore 2).slugs, r.Slug = "abc") ∧
    handleGetSlug demoEnv "abc" (demoStore 2) =
      (⟨200, .slug { ID := 2, Slug := "abc", Domain := "https://x.com", UserID := "u1" }⟩,
       { slugs := (demoStore 2).slugs,
         hits := [{ Slug := { ID := 2, Slug := "abc", Domain := "https://x.com",
                              UserID := "u1" },
                    HittedAt := 1700000000004 }] }) := by
  refine ⟨by decide, ((resolve_slug demoEnv "zzz" (demoStore 2)).1 (by decide)).2,
    ⟨demoRecord 0, by decide, rfl⟩, ?_⟩
  obtain ⟨p, hp, -, hh⟩ :=
    (resolve_slug demoEnv "abc" (demoStore 2)).2 ⟨demoRecord 0, by decide, rfl⟩ rfl rfl
  have hlast : ((demoStore 2).slugs.filter (fun r => decide (r.Slug = "abc"))).getLast?
      = some (demoRecord 1) := by decide
  rw [hlast] at hp
  cases hp
  exact hh

/-- C7. Listing.  For a user that exists and a find that succeeds, `getSlugs`
returns, without error, one slug for each record whose user id is the given one,
in store order, carrying the id, slug, domain and user id of its record;
`GET /slugs` answers 200 with that sequence and changes nothing.  For a user
without records the sequence is empty and not nil. -/
theorem list_slugs (env : Env) (uid : String) (st : Store)
    (hUser : userExists env uid) (hFind : env.findFault = .ok) :
    getSlugs uid env.findFault st =
      (some ((st.slugs.filter (fun r => decide (r.UserID = uid))).map (fun r =>
        { ID := r.ID, Slug := r.Slug, Domain := r.Domain, UserID := r.UserID })), none) ∧
    handleGetSlugs env uid st =
      (⟨200, .slugs (some ((st.slugs.filter (fun r => decide (r.UserID = uid))).map (fun r =>
        { ID := r.ID, Slug := r.Slug, Domain := r.Domain, UserID := r.UserID })))⟩,
       st) ∧
    ((∀ r ∈ st.slugs, r.UserID ≠ uid) →
      getSlugs uid env.findFault st = (some [], none) ∧
      handleGetSlugs env uid st = (⟨200, .slugs (some [])⟩, st)) := by
  unfold userExists at hUser
  have h1 := getSlugs_ok uid st
  refine ⟨by rw [hFind, h1], by simp [handleGetSlugs, hUser, hFind, h1], ?_⟩
  intro hno
  have hnil : st.slugs.filter (fun r => decide (r.UserID = uid)) = [] := by
    simpa [List.filter_eq_nil_iff] using hno
  rw [hnil] at h1
  exact ⟨by rw [hFind, h1]; rfl, by simp [handleGetSlugs, hUser, hFind, h1]⟩

/-- Witness of C7: the listing of user `u1` in the store with the shared id gives
the records 7 and 8 of `u1`, in that order, and not the record 7 of `u2`. -/
theorem list_slugs_witness :
    userExists demoEnv "u1" ∧ demoEnv.findFault = .ok ∧
    handleGetSlugs demoEnv "u1" sharedIdStore =
      (⟨200, .slugs (some
          [{ ID := 7, Slug := "abc", Domain := "https://x.com", UserID := "u1" },
           { ID := 8, Slug := "def", Domain := "https://z.com", UserID := "u1" }])⟩,
       sharedIdStore) :=
  ⟨by decide, rfl, (list_slugs demoEnv "u1" sharedIdStore (by decide) rfl).2.1.trans (by decide)⟩

/-- C6. Authorization gate.  When the identity provider answers user-not-found for
a user id, `checkUserExists` returns false without an error, and each of the list,
create, update and delete handlers answers 400 for a request of that user and
leaves both collections as they were. -/
theorem authorization_gate (env : Env) (uid : String) (st : Store)
    (hNotFound : IsUserNotFound (env.GetUser uid).2 = true) :
    checkUserExists (env.GetUser uid) = (false, none) ∧
    handleGetSlugs env uid st = (⟨400, .err (.errorsNew "USER not found")⟩, st) ∧
    (∀ body : SlugCreate, body.UserID = uid →
      handlePostSlugs env (.ok body) st = (⟨400, .err (.errorsNew "USER not found")⟩, st)) ∧
    (∀ slug : Slug, slug.UserID = uid →
      handlePutSlugs env (.ok slug) st = (⟨400, .err (.errorsNew "USER not found")⟩, st)) ∧
    (∀ id_str : String,
      handleDeleteSlugs env uid id_str st =
        (⟨400, .err (.errorsNew "USER not found")⟩, st)) := by
  have hc : checkUserExists (env.GetUser uid) = (false, none) := by
    simp [checkUserExists, hNotFound]
  refine ⟨hc, by simp [handleGetSlugs, hc], ?_, ?_, ?_⟩
  · rintro body rfl
    simp [handlePostSlugs, hc]
  · rintro slug rfl
    simp [handlePutSlugs, hc]
  · intro id_str
    simp [handleDeleteSlugs, hc]


/-- Witness of C6: the provider does not know user `nobody`. -/
theorem authorization_gate_witness :
    IsUserNotFound (demoEnv.GetUser "nobody").2 = true ∧
    checkUserExists (demoEnv.GetUser "nobody") = (false, none) ∧
    handleGetSlugs demoEnv "nobody" (demoStore 2) =
      (⟨400, .err (.errorsNew "USER not found")⟩, demoStore 2) :=
  ⟨by decide, (authorization_gate demoEnv "nobody" (demoStore 2) (by decide)).1,
    (authorization_gate demoEnv "nobody" (demoStore 2) (by decide)).2.1⟩

/-! ## Update and delete -/

theorem _updateSlug_ok (slug : Slug) (now : Time) (st : Store) :
    _updateSlug slug now none st =
      (none, { slugs := st.slugs.map (fun r =>
                 if owned slug.ID slug.UserID r then
                   { r with Slug := slug.Slug, Domain := slug.Domain,
                            UpdatedAt := NewDateTimeFromTime now }
                 else r),
               hits := st.hits }) := by
  have hf : (ownerFilter slug.UserID slug.ID).matches = owned slug.ID slug.UserID :=
    funext (matches_ownerFilter slug.UserID slug.ID)
  simp [_updateSlug, UpdateMany, hf, applySet_updater]

theorem deleteSlug_ok (id : ObjectID) (uid : String) (st : Store) :
    deleteSlug id uid none st =
      (none, { slugs := st.slugs.eraseP (owned id uid), hits := st.hits }) := by
  have hf : (ownerFilter uid id).matches = owned id uid :=
    funext (matches_ownerFilter uid id)
  simp [deleteSlug, DeleteOne, hf]

theorem eraseP_owned_eq_filter (id : ObjectID) (uid : String) (l : List SlugPersistence)
    (hUniq : (l.map (fun r => r.ID)).Nodup) :
    l.eraseP (owned id uid) = l.filter (fun r => !owned id uid r) := by
  induction l with
  | nil => simp
  | cons a l ih =>
    rw [List.map_cons, List.nodup_cons] at hUniq
    by_cases ha : owned id uid a = true
    · have hrest : ∀ r ∈ l, (!owned id uid r) = true := by
        intro r hr
        by_contra hc
        have hro : owned id uid r = true := by simpa using hc
        simp only [owned, decide_eq_true_eq] at ha hro
        apply hUniq.1
        rw [ha.1, ← hro.1]
        exact List.mem_map_of_mem _ hr
      simp [List.eraseP_cons, ha, List.filter_eq_self.mpr hrest]
    · simp [List.eraseP_cons, ha, ih hUniq.2]

/-- C4. Ownership isolation of update.  An update `(id, userId, newSlug, newDomain)`
whose store call succeeds returns no error, keeps the number and order of the
records and the hits collection, leaves every record whose `(id, userid)` pair is
not the one of the request exactly as it was (also one with the same id and
another user id), and gives every record with that pair the new slug and domain
and the clock reading as `updatedat`, its id, user id and `createdat` untouched.
When no record has the pair, the store is unchanged. -/
theorem update_ownership_isolation (slug : Slug) (now : Time) (st : Store) :
    (_updateSlug slug now none st).1 = none ∧
    (_updateSlug slug now none st).2.hits = st.hits ∧
    (_updateSlug slug now none st).2.slugs.length = st.slugs.length ∧
    (∀ (i : Nat) (r : SlugPersistence), st.slugs[i]? = some r →
      (_updateSlug slug now none st).2.slugs[i]? =
        some (if r.ID = slug.ID ∧ r.UserID = slug.UserID then
                { ID := r.ID, Slug := slug.Slug, Domain := slug.Domain, UserID := r.UserID,
                  CreatedAt := r.CreatedAt, UpdatedAt := NewDateTimeFromTime now }
              else r)) ∧
    ((∀ r ∈ st.slugs, ¬ (r.ID = slug.ID ∧ r.UserID = slug.UserID)) →
      _updateSlug slug now none st = (none, st)) := by
  rw [_updateSlug_ok]
  refine ⟨rfl, rfl, by simp, ?_, ?_⟩
  · intro i r hr
    simp [List.getElem?_map, hr, owned]
  · intro hno
    have : st.slugs.map (fun r =>
        if owned slug.ID slug.UserID r then
          { r with Slug := slug.Slug, Domain := slug.Domain,
                   UpdatedAt := NewDateTimeFromTime now }
        else r) = st.slugs := by
      conv_rhs => rw [← List.map_id st.slugs]
      apply List.map_congr_left
      intro r hr
      have := hno r hr
      simp [owned, this]
    rw [this]

/-- Witness of C4: in the store with the shared id, the update of record 7 of
user `u1` rewrites that record (position 0) and leaves the record 7 of user `u2`
(position 1) as it was. -/
theorem update_ownership_isolation_witness :
    (_updateSlug demoUpdate demoEnv.nowUpdate none sharedIdStore).2.slugs[0]? =
      some { ID := 7, Slug := "new", Domain := "https://n.com", UserID := "u1",
             CreatedAt := 1699999999000, UpdatedAt := 1700000000003 } ∧
    (_updateSlug demoUpdate demoEnv.nowUpdate none sharedIdStore).2.slugs[1]? =
      some { ID := 7, Slug := "abc", Domain := "https://y.com", UserID := "u2",
             CreatedAt := 1699999999000, UpdatedAt := 1699999999000 } :=
  ⟨((update_ownership_isolation demoUpdate demoEnv.nowUpdate sharedIdStore).2.2.2.1
      0 _ rfl).trans (by decide),
   ((update_ownership_isolation demoUpdate demoEnv.nowUpdate sharedIdStore).2.2.2.1
      1 _ rfl).trans (by decide)⟩

/-- C5. Delete.  In a store whose record ids are unique, a delete `(id, userId)`
whose store call succeeds returns no error and leaves exactly the records that do
not match both id and user id, unchanged and in their order; the hits collection
is untouched; a second delete of the same pair returns no error and leaves the
store as the first delete left it. -/
theorem delete_exact_idempotent (id : ObjectID) (uid : String) (st : Store)
    (hUniq : (st.slugs.map (fun r => r.ID)).Nodup) :
    (deleteSlug id uid none st).1 = none ∧
    (deleteSlug id uid none st).2.slugs =
      st.slugs.filter (fun r => decide (¬ (r.ID = id ∧ r.UserID = uid))) ∧
    (deleteSlug id uid none st).2.hits = st.hits ∧
    deleteSlug id uid none (deleteSlug id uid none st).2 =
      (none, (deleteSlug id uid none st).2) := by
  have hflt : (fun r : SlugPersistence => decide (¬ (r.ID = id ∧ r.UserID = uid)))
      = fun r => !owned id uid r := by
    funext r; simp [owned]
  rw [deleteSlug_ok, hflt]
  refine ⟨rfl, eraseP_owned_eq_filter id uid st.slugs hUniq, rfl, ?_⟩
  rw [deleteSlug_ok]
  simp only [eraseP_owned_eq_filter id uid st.slugs hUniq]
  congr 2
  apply List.eraseP_of_forall_not
  intro r hr
  have := (List.mem_filter.mp hr).2
  simpa using this


/-- Witness of C5: the delete of record 2 of user `u1` from three records. -/
theorem delete_exact_idempotent_witness :
    ((demoStore 3).slugs.map (fun r => r.ID)).Nodup ∧
    (deleteSlug 2 "u1" none (demoStore 3)).2.slugs =
      (demoStore 3).slugs.filter (fun r => decide (¬ (r.ID = 2 ∧ r.UserID = "u1"))) ∧
    deleteSlug 2 "u1" none (deleteSlug 2 "u1" none (demoStore 3)).2 =
      (none, (deleteSlug 2 "u1" none (demoStore 3)).2) :=
  ⟨by decide, (delete_exact_idempotent 2 "u1" (demoStore 3) (by decide)).2.1,
    (delete_exact_idempotent 2 "u1" (demoStore 3) (by decide)).2.2.2⟩

/-! ## Timestamps -/

theorem run_keeps_order (ops : List Op) : ∀ st : Store,
    (clockReadings ops).Pairwise (fun s t => s ≤ t) →
    (∀ r ∈ st.slugs, r.CreatedAt ≤ r.UpdatedAt ∧
      ∀ t ∈ clockReadings ops, r.CreatedAt ≤ NewDateTimeFromTime t) →
    ∀ r ∈ (run ops st).slugs, r.CreatedAt ≤ r.UpdatedAt := by
  induction ops with
  | nil =>
    intro st _ h r hr
    exact (h r hr).1
  | cons op ops ih =>
    intro st hp h
    simp only [clockReadings, List.pairwise_append] at hp
    obtain ⟨hp1, hp2, hp3⟩ := hp
    have hold : ∀ r ∈ st.slugs, r.CreatedAt ≤ r.UpdatedAt ∧
        ∀ t ∈ clockReadings ops, r.CreatedAt ≤ NewDateTimeFromTime t := by
      intro r hr
      exact ⟨(h r hr).1, fun t ht => (h r hr).2 t (by simp [clockReadings, ht])⟩
    apply ih (op.apply st) hp2
    intro r hr
    cases op with
    | create slug t1 t2 fault =>
      cases fault with
      | some e =>
        simp only [Op.apply, createSlug, _createSlug, InsertOne] at hr
        exact hold r hr
      | none =>
        simp only [Op.apply, createSlug, _createSlug, InsertOne, List.mem_append,
          List.mem_singleton] at hr
        rcases hr with hr | rfl
        · exact hold r hr
        · simp only [Op.readings, List.pairwise_cons, List.mem_singleton, forall_eq] at hp1
          refine ⟨NewDateTimeFromTime_mono hp1.1, fun t ht => ?_⟩
          exact NewDateTimeFromTime_mono (hp3 t1 (by simp [Op.readings]) t ht)
    | update slug now fault =>
      cases fault with
      | some e =>
        simp only [Op.apply, _updateSlug, UpdateMany] at hr
        exact hold r hr
      | none =>
        simp only [Op.apply, _updateSlug_ok, List.mem_map] at hr
        obtain ⟨r0, hr0, rfl⟩ := hr
        by_cases ho : owned slug.ID slug.UserID r0 = true
        · simp only [ho, if_true]
          refine ⟨(h r0 hr0).2 now (by simp [clockReadings, Op.readings]), ?_⟩
          exact (hold r0 hr0).2
        · simp only [ho]
          exact hold r0 hr0
    | delete slug_id uid fault =>
      cases fault with
      | some e =>
        simp only [Op.apply, deleteSlug, DeleteOne] at hr
        exact hold r hr
      | none =>
        simp only [Op.apply, deleteSlug_ok] at hr
        exact hold r (List.mem_of_mem_eraseP hr)

/-- C10, amended by the premise on the clock.  Let the clock readings of a
sequence of create, update and delete operations, each `time.Now()` of
`createSlug` and `_updateSlug` being a reading of its own, be non-decreasing in
the order they are taken.  Then every record of the store reached from the empty
store has `updatedat >= createdat`.  Whatever the readings, a create that
succeeds appends a record stamped with its two readings, and an update never
alters the `createdat` of any record. -/
theorem timestamp_invariant (ops : List Op)
    (hClock : (clockReadings ops).Pairwise (fun s t => s ≤ t)) :
    (∀ r ∈ (run ops emptyStore).slugs, r.CreatedAt ≤ r.UpdatedAt) ∧
    (∀ (slug : Slug) (tCreated tUpdated : Time) (st : Store),
      (createSlug slug tCreated tUpdated none st).2.slugs =
        st.slugs ++ [{ ID := slug.ID, Slug := slug.Slug, Domain := slug.Domain,
                       UserID := slug.UserID,
                       CreatedAt := NewDateTimeFromTime tCreated,
                       UpdatedAt := NewDateTimeFromTime tUpdated }]) ∧
    (∀ (slug : Slug) (now : Time) (fault : Option GoError) (st : Store),
      (_updateSlug slug now fault st).2.slugs.map (fun r => r.CreatedAt) =
        st.slugs.map (fun r => r.CreatedAt)) := by
  refine ⟨run_keeps_order ops emptyStore hClock (by simp [emptyStore]), ?_, ?_⟩
  · intro slug tCreated tUpdated st
    simp [createSlug, _createSlug, InsertOne]
  · intro slug now fault st
    cases fault with
    | some e => simp [_updateSlug, UpdateMany]
    | none =>
      rw [_updateSlug_ok]
      simp only [List.map_map]
      apply List.map_congr_left
      intro r _
      by_cases ho : owned slug.ID slug.UserID r = true <;> simp [ho]

/-- Witness of the amended C10: a create, an update and a delete with growing
readings. -/
theorem timestamp_invariant_witness :
    (clockReadings demoOps).Pairwise (fun s t => s ≤ t) ∧
    (∀ r ∈ (run demoOps emptyStore).slugs, r.CreatedAt ≤ r.UpdatedAt) :=
  ⟨by decide, (timestamp_invariant demoOps (by decide)).1⟩

/-- C10 as worded fails.  The program stamps records from the wall clock, which
can be set back.  Set back by a millisecond between the two readings of
`createSlug`, it gives the new record `updatedat < createdat`; set back between a
create and an update of the same record, it gives the updated record
`updatedat < createdat`. -/
theorem timestamp_invariant_counterexample :
    (run steppedBackOps emptyStore).slugs =
      [{ ID := 7, Slug := "new", Domain := "https://n.com", UserID := "u1",
         CreatedAt := 1700000000002, UpdatedAt := 1700000000001 }] ∧
    (run setBackUpdateOps emptyStore).slugs =
      [{ ID := 7, Slug := "new", Domain := "https://n.com", UserID := "u1",
         CreatedAt := 1700000000005, UpdatedAt := 1700000000001 }] ∧
    ¬ (∀ ops : List Op, ∀ r ∈ (run ops emptyStore).slugs, r.CreatedAt ≤ r.UpdatedAt) := by
  refine ⟨by decide, by decide, fun h => ?_⟩
  exact absurd (h steppedBackOps _ (List.mem_singleton.mpr rfl)) (by decide)

/-! ## Error paths that depart from the error table -/

theorem filterSlugs_cursor (filter : Filter) (k : Nat) (e : GoError) (st : Store) :
    filterSlugs filter (.cursor k e) st =
      (if (st.slugs.filter filter.matches).take k = [] then none
       else some ((st.slugs.filter filter.matches).take k), some e) := by
  simp only [filterSlugs, Find, drain_none]

/-- The `DELETE /slugs` handler answers 500 whenever the id does not parse. -/
theorem delete_unparsable_id (env : Env) (uid id_str : String) (st : Store)
    (hUser : userExists env uid) (hBad : (ObjectIDFromHex id_str).2 ≠ none) :
    ∃ e, handleDeleteSlugs env uid id_str st = (⟨500, .err e⟩, st) := by
  unfold userExists at hUser
  cases hp : ObjectIDFromHex id_str with
  | mk id err =>
    cases err with
    | none => simp [hp] at hBad
    | some e => exact ⟨e, by simp [handleDeleteSlugs, hUser, hp]⟩

/-- C8, at the request `DELETE /slugs?userid=u1&id=xyz` of an existing user: the
handler answers 500 with the parse error, not 400; the store is unchanged. -/
theorem delete_bad_id_status :
    userExists demoEnv "u1" ∧
    ObjectIDFromHex "xyz" = (0, some .invalidHex) ∧
    handleDeleteSlugs demoEnv "u1" "xyz" (demoStore 1) =
      (⟨500, .err .invalidHex⟩, demoStore 1) := by
  decide

/-- C9, when `collection.Find` fails with a store error `e`: `_getSlug` and
`getSlug` report the not-found error instead of `e`, and `GET /slug` answers 400;
it also answers 400 when the cursor reports the store error after some results. -/
theorem resolve_store_error_swallowed (env : Env) (slug : String) (st : Store) (e : GoError) :
    _getSlug slug (.find e) st = (none, some (.errorsNew "Slug not found")) ∧
    getSlug slug (.find e) st = (none, some (.errorsNew "Slug not found")) ∧
    handleGetSlug { env with findFault := .find e } slug st = (⟨400, .emptyH⟩, st) ∧
    (∀ k : Nat,
      handleGetSlug { env with findFault := .cursor k e } slug st = (⟨400, .emptyH⟩, st)) := by
  have h1 : _getSlug slug (.find e) st = (none, some (.errorsNew "Slug not found")) := by
    simp [_getSlug, filterSlugs, Find]
  refine ⟨h1, by simp [getSlug, h1], by simp [handleGetSlug, getSlug, h1], ?_⟩
  intro k
  have h2 : ∃ p err, _getSlug slug (.cursor k e) st = (p, some err) := by
    unfold _getSlug
    rw [filterSlugs_cursor]
    cases (st.slugs.filter (Filter.matches [("slug", .eq (.str slug))])).take k with
    | nil => exact ⟨_, _, rfl⟩
    | cons a l => exact ⟨_, _, rfl⟩
  obtain ⟨p, err, h2⟩ := h2
  simp [handleGetSlug, getSlug, h2]

end UrlShortner
